import Mathlib

/-!
Shallow embedding of the ChessArena dashboard core (src/app.py):
the GA4 report-query shaping function `run_ga4_report` and the funnel
derived-metrics computation, together with the funnel query configuration.

Conventions of the embedding:
- machine integers are `Int`/`Nat`; ratios computed by Python float division
  are modelled as `Rat` (the concrete values the claims touch are exact);
- the Streamlit/pandas layer is modelled by explicit lists of column cells;
- fallible Python code (the `try ... except` body of `run_ga4_report`) is
  modelled in the `Except String` monad, with the catch-all handler applied at
  the end, exactly as the source does.
-/

namespace ChessArena

/-- Sentinel string used by app.py for "no data" cells ("—"). -/
def SENTINEL : String := "—"

/-- `TIMEZONE = "America/Los_Angeles"` (app.py line 20). -/
def TIMEZONE : String := "America/Los_Angeles"

/-- `LOOKBACK_OPTIONS = [7, 14, 30]` (app.py line 21). -/
def LOOKBACK_OPTIONS : List ℤ := [7, 14, 30]

/-! ### Date handling (app.py lines 160-178), at calendar-day granularity.
Dates are modelled as integer day numbers in the fixed reference timezone. -/

/-- `range_start = today_start_la - timedelta(days=lookback_days - 1)` (app.py line 177). -/
def range_start (today lookback_days : ℤ) : ℤ := today - (lookback_days - 1)

/-- `range_end = today_end_la` — i.e. today (app.py line 178). -/
def range_end (today : ℤ) : ℤ := today

/-- `format_date` (app.py lines 69-71), on day numbers. -/
def format_date (d : ℤ) : String := toString d

/-! ### GA4 request model (google.analytics.data_v1beta types, as used by app.py) -/

/-- String-filter match modes of the GA4 API (`Filter.StringFilter.MatchType`). -/
inductive MatchType where
  | MATCH_TYPE_UNSPECIFIED
  | EXACT
  | BEGINS_WITH
  | ENDS_WITH
  | CONTAINS
  | FULL_REGEXP
  | PARTIAL_REGEXP
deriving DecidableEq, Repr

/-- `Filter.StringFilter.MatchType[s]`: name lookup in the enumeration; a
missing name raises `KeyError`, modelled as `none`. -/
def matchTypeOfName (s : String) : Option MatchType :=
  if s == "MATCH_TYPE_UNSPECIFIED" then some .MATCH_TYPE_UNSPECIFIED
  else if s == "EXACT" then some .EXACT
  else if s == "BEGINS_WITH" then some .BEGINS_WITH
  else if s == "ENDS_WITH" then some .ENDS_WITH
  else if s == "CONTAINS" then some .CONTAINS
  else if s == "FULL_REGEXP" then some .FULL_REGEXP
  else if s == "PARTIAL_REGEXP" then some .PARTIAL_REGEXP
  else none

/-- `Filter.StringFilter(value=..., match_type=...)`. -/
structure StringFilter where
  value : String
  match_type : MatchType
deriving DecidableEq, Repr

/-- `Filter(field_name=..., string_filter=...)`. -/
structure Filter where
  field_name : String
  string_filter : StringFilter
deriving DecidableEq, Repr

/-- `FilterExpression`: either a single filter or an AND-group
(`and_group=FilterExpressionList(expressions=[...])`). -/
inductive FilterExpression where
  | filter (f : Filter)
  | and_group (expressions : List FilterExpression)

/-- `Metric(name=...)`. -/
structure Metric where
  name : String
deriving DecidableEq, Repr

/-- `Dimension(name=...)`. -/
structure Dimension where
  name : String
deriving DecidableEq, Repr

/-- `DateRange(start_date=..., end_date=...)` (formatted dates). -/
structure DateRange where
  start_date : String
  end_date : String
deriving DecidableEq, Repr

/-- `RunReportRequest(...)` as built at app.py lines 103-109. -/
structure RunReportRequest where
  property : String
  metrics : List Metric
  date_ranges : List DateRange
  dimensions : Option (List Dimension)
  dimension_filter : Option FilterExpression

/-- One response row: `row.dimension_values[*].value` and
`int(row.metric_values[*].value)` (metric values modelled already parsed). -/
structure Row where
  dimension_values : List String
  metric_values : List ℤ
deriving DecidableEq, Repr

/-- The shaped result of `run_ga4_report`: a single integer when no dimensions
were requested, a mapping (insertion-ordered association list, last write
wins) when they were. -/
inductive ReportResult where
  | scalar (n : ℤ)
  | mapping (m : List (String × ℤ))
deriving DecidableEq, Repr

/-- Python truthiness of the optional `dimension_names` / `filter_specs`
tuples: `None` and the empty tuple are falsy. -/
def truthy {α : Type} (o : Option (List α)) : Bool :=
  match o with
  | none => false
  | some l => !l.isEmpty

/-! ### run_ga4_report (app.py lines 73-126) -/

/-- A filter spec triple `(field_name, value, match_type_str)`. -/
abbrev FilterSpec : Type := String × String × String

/-- Python `str.upper()` (ASCII range; every match-mode string in the program
is ASCII), applied before the enumeration lookup (app.py line 91). -/
def upper (s : String) : String :=
  String.mk (s.data.map (fun c =>
    if 'a' ≤ c ∧ c ≤ 'z' then Char.ofNat (c.toNat - 32) else c))

/-- Loop of app.py lines 89-95: build one `Filter` per spec in order, looking
the match type up by the uppercased name; the first unknown name raises
`KeyError` out of the loop. -/
def buildFilters : List FilterSpec → Except String (List Filter)
  | [] => Except.ok []
  | spec :: rest =>
    match matchTypeOfName (upper spec.2.2) with
    | some mt => do
      let fs ← buildFilters rest
      Except.ok ({ field_name := spec.1,
                   string_filter := { value := spec.2.1, match_type := mt } } :: fs)
    | none => Except.error "KeyError"

/-- app.py lines 86-100: no filter expression when `filter_specs` is falsy; a
single filter is passed unwrapped; two or more are combined in an AND-group. -/
def buildFilterExpression (filter_specs : Option (List FilterSpec)) :
    Except String (Option FilterExpression) :=
  if truthy filter_specs then do
    let filters ← buildFilters (filter_specs.getD [])
    match filters with
    | [f] => Except.ok (some (.filter f))
    | fs => Except.ok (some (.and_group (fs.map .filter)))
  else
    Except.ok none

/-- app.py lines 103-109: the `RunReportRequest` sent to the backend. -/
def buildRequest (property_id : String) (metric_names : List String)
    (start_date end_date : ℤ) (dimension_names : Option (List String))
    (filter_specs : Option (List FilterSpec)) : Except String RunReportRequest := do
  let fe ← buildFilterExpression filter_specs
  Except.ok
    { property := "properties/" ++ property_id,
      metrics := metric_names.map Metric.mk,
      date_ranges := [{ start_date := format_date start_date,
                        end_date := format_date end_date }],
      dimensions := if truthy dimension_names
                    then some ((dimension_names.getD []).map Dimension.mk)
                    else none,
      dimension_filter := fe }

/-- `result[k] = v` on a Python dict modelled as an insertion-ordered
association list: overwrite an existing key, else append. -/
def dictInsert (m : List (String × ℤ)) (k : String) (v : ℤ) : List (String × ℤ) :=
  if m.any (fun p => p.1 == k) then
    m.map (fun p => if p.1 == k then (k, v) else p)
  else
    m ++ [(k, v)]

/-- `m.get(k, d)` on a Python dict modelled as an association list. -/
def dictGet (m : List (String × ℤ)) (k : String) (d : ℤ) : ℤ :=
  match m.find? (fun p => p.1 == k) with
  | some p => p.2
  | none => d

/-- app.py lines 117-120: read `row.dimension_values[0].value` and
`int(row.metric_values[0].value)`; an out-of-range index raises. -/
def rowEntry (r : Row) : Except String (String × ℤ) :=
  match r.dimension_values.head?, r.metric_values.head? with
  | some d, some v => Except.ok (d, v)
  | _, _ => Except.error "IndexError"

/-- `run_ga4_report` (app.py lines 73-126). The backend call
`ga4.run_report(request)` is a parameter mapping the request to either a row
list or an error; every failure inside the `try` body falls to the
`except` handler, which returns `{}` when `dimension_names` is truthy and `0`
otherwise (line 126). -/
def run_ga4_report (backend : RunReportRequest → Except String (List Row))
    (property_id : String) (metric_names : List String)
    (start_date end_date : ℤ)
    (dimension_names : Option (List String) := none)
    (filter_specs : Option (List FilterSpec) := none) : ReportResult :=
  let body : Except String ReportResult := do
    let request ← buildRequest property_id metric_names start_date end_date
        dimension_names filter_specs
    let rows ← backend request
    if truthy dimension_names then
      let entries ← rows.mapM rowEntry
      Except.ok (.mapping (entries.foldl (fun m kv => dictInsert m kv.1 kv.2) []))
    else
      match rows with
      | [] => Except.ok (.scalar 0)
      | r :: _ =>
        match r.metric_values.head? with
        | some v => Except.ok (.scalar v)
        | none => Except.error "IndexError"
  match body with
  | Except.ok r => r
  | Except.error _ => if truthy dimension_names then .mapping [] else .scalar 0

/-! ### Funnel computations (app.py lines 181-229) -/

/-- `funnel_event_names_regex` (app.py line 182). -/
def funnel_event_names_regex : String := "page_view|click_register|discord_signin"

/-- The single filter spec triple passed by the funnel query (app.py line 188). -/
def funnel_filter_specs : List FilterSpec :=
  [("eventName", funnel_event_names_regex, "FULL_REGEXP")]

/-- `funnel_event_counts = run_ga4_report(...)` (app.py lines 183-189). -/
def funnel_event_counts (backend : RunReportRequest → Except String (List Row))
    (property_id : String) (rs re : ℤ) : ReportResult :=
  run_ga4_report backend property_id ["totalUsers"] rs re
    (some ["eventName"]) (some funnel_filter_specs)

/-- The dict underlying a dimensioned `ReportResult` (the funnel call always
produces a mapping; the scalar case is unreachable there). -/
def reportMapping : ReportResult → List (String × ℤ)
  | .mapping m => m
  | .scalar _ => []

/-- `page_views = funnel_event_counts.get("page_view", 0)` (app.py line 191). -/
def page_views (counts : List (String × ℤ)) : ℤ := dictGet counts "page_view" 0

/-- `register_clicks = funnel_event_counts.get("click_register", 0)` (app.py line 192). -/
def register_clicks (counts : List (String × ℤ)) : ℤ := dictGet counts "click_register" 0

/-- `discord_signins = funnel_event_counts.get("discord_signin", 0)` (app.py line 193). -/
def discord_signins (counts : List (String × ℤ)) : ℤ := dictGet counts "discord_signin" 0

/-- `funnel_steps` (app.py lines 196-201): step labels with optional totals;
the first stage is a placeholder with total `None`. -/
def funnel_steps (pv rc ds : ℤ) : List (String × Option ℚ) :=
  [("Social Media Impressions", none),
   ("Landing Page Visits", some (pv : ℚ)),
   ("Clicked Register", some (rc : ℚ)),
   ("Signed in with Discord", some (ds : ℚ))]

/-- The `Total` column of `funnel_df` (None becomes NaN, modelled `none`). -/
def funnelTotals (pv rc ds : ℤ) : List (Option ℚ) :=
  (funnel_steps pv rc ds).map Prod.snd

/-- Render a signed count of hundredths of a percent as Python's `.2%` output:
integer part, a dot, two fractional digits, a trailing `%`. -/
def pctString (n : ℤ) : String :=
  (if n < 0 then "-" else "") ++ toString (n.natAbs / 100) ++ "." ++
    (if n.natAbs % 100 < 10 then "0" else "") ++ toString (n.natAbs % 100) ++ "%"

/-- The value of `q`, in hundredths of a percent, rounded to the nearest
integer (rounding half up; Python rounds half to even on the underlying
binary float, which agrees everywhere off the exact midpoints, and every
value the dashboard formats is off the midpoints). -/
def pctRound (q : ℚ) : ℤ := ⌊q * 10000 + 1 / 2⌋

/-- Python `f"{q:.2%}"` on an exact rational value. -/
def fmtPct (q : ℚ) : String := pctString (pctRound q)

/-- `funnel_df["Total"].iloc[1]` when present (`pd.notna`): the baseline
total used for percentages (app.py lines 206-207). `none` covers both the
too-short frame and the NaN cell. -/
def baselineTotal (totals : List (Option ℚ)) : Option ℚ :=
  match totals[1]? with
  | some (some b) => some b
  | _ => none

/-- Percentage cell for one stage (app.py line 211): `f"{(total / baseline_total):.2%}"`;
a NaN total formats as `"nan%"` (unreachable in the app, where stages 1-3 are
always numeric). -/
def pctEntry (baseline : ℚ) : Option ℚ → String
  | some t => fmtPct (t / baseline)
  | none => "nan%"

/-- Drop-off cell for transition `i → i+1` (app.py lines 216-222): formatted
`1 - next/current` when the current total is present and positive and the
next total is present, else the sentinel. -/
def dropOffEntry (totals : List (Option ℚ)) (i : ℕ) : String :=
  match totals[i]?, totals[i + 1]? with
  | some (some current), some (some next_val) =>
      if 0 < current then fmtPct (1 - next_val / current) else SENTINEL
  | _, _ => SENTINEL

/-- The `Drop-off` column (app.py lines 214-224): a leading sentinel for the
placeholder row, one entry per interior transition `i ∈ [1, n-2]`, and a
trailing sentinel for the last row. -/
def dropOffs (totals : List (Option ℚ)) : List String :=
  SENTINEL ::
    ((List.range (totals.length - 1 - 1)).map (fun j => dropOffEntry totals (j + 1))
      ++ [SENTINEL])

/-- The `% of Impressions` column (app.py lines 209-212): a leading sentinel,
then one percentage-of-baseline cell per stage from index 1 on. -/
def pctCol (totals : List (Option ℚ)) (baseline : ℚ) : List String :=
  SENTINEL :: (totals.drop 1).map (pctEntry baseline)

/-- app.py lines 206-227: the two derived columns of `funnel_df`
(`% of Impressions`, `Drop-off`). When the baseline total is absent or not
positive, pandas broadcasts the sentinel over every row of both columns. -/
def funnelColumns (totals : List (Option ℚ)) : List String × List String :=
  match baselineTotal totals with
  | some b =>
      if 0 < b then (pctCol totals b, dropOffs totals)
      else (List.replicate totals.length SENTINEL, List.replicate totals.length SENTINEL)
  | none => (List.replicate totals.length SENTINEL, List.replicate totals.length SENTINEL)

/-! ### Evaluation lemmas for the formatter -/

/-- Floor of an integer ratio over ℚ is Euclidean integer division. -/
theorem floor_int_div (n d : ℤ) (hd : 0 < d) : ⌊(n : ℚ) / (d : ℚ)⌋ = n / d := by
  rw [show ((d : ℤ) : ℚ) = ((d.toNat : ℕ) : ℚ) from by
        exact_mod_cast congrArg (fun z : ℤ => (z : ℚ)) (Int.toNat_of_nonneg hd.le).symm,
      Rat.floor_intCast_div_natCast, Int.toNat_of_nonneg hd.le]

/-- `pctRound` of an integer ratio, computed by integer division. -/
theorem pctRound_div (a b : ℤ) (hb : 0 < b) :
    pctRound ((a : ℚ) / (b : ℚ)) = (20000 * a + b) / (2 * b) := by
  have hbq : (b : ℚ) ≠ 0 := by positivity
  have h2 : (a : ℚ) / (b : ℚ) * 10000 + 1 / 2
      = ((20000 * a + b : ℤ) : ℚ) / ((2 * b : ℤ) : ℚ) := by
    push_cast
    field_simp
    ring
  rw [pctRound, h2, floor_int_div _ _ (by positivity)]

/-- `pctRound` of `1 - a/b`, computed by integer division. -/
theorem pctRound_one_sub_div (a b : ℤ) (hb : 0 < b) :
    pctRound (1 - (a : ℚ) / (b : ℚ)) = (20000 * (b - a) + b) / (2 * b) := by
  have hbq : (b : ℚ) ≠ 0 := by positivity
  have h : (1 : ℚ) - (a : ℚ) / (b : ℚ) = ((b - a : ℤ) : ℚ) / ((b : ℤ) : ℚ) := by
    push_cast
    field_simp
  rw [h, pctRound_div _ _ hb]

/-- `fmtPct` of an integer ratio. -/
theorem fmtPct_div (a b : ℤ) (hb : 0 < b) :
    fmtPct ((a : ℚ) / (b : ℚ)) = pctString ((20000 * a + b) / (2 * b)) := by
  rw [fmtPct, pctRound_div _ _ hb]

/-- `fmtPct` of `1 - a/b`. -/
theorem fmtPct_one_sub_div (a b : ℤ) (hb : 0 < b) :
    fmtPct (1 - (a : ℚ) / (b : ℚ)) = pctString ((20000 * (b - a) + b) / (2 * b)) := by
  rw [fmtPct, pctRound_one_sub_div _ _ hb]

/-! ### General lemmas about the funnel columns -/

/-- When the baseline cell holds a positive value, the derived columns are the
percentage column and the drop-off column. -/
theorem funnelColumns_of_pos_baseline (totals : List (Option ℚ)) (b : ℚ)
    (hb : baselineTotal totals = some b) (hpos : 0 < b) :
    funnelColumns totals = (pctCol totals b, dropOffs totals) := by
  simp only [funnelColumns, hb, if_pos hpos]

/-- Closed form of both columns for the app's 4-stage funnel with positive
page-view and register-click counts. -/
theorem funnelColumns_pos_eval (pv rc ds : ℤ) (hpv : 0 < pv) (hrc : 0 < rc) :
    funnelColumns (funnelTotals pv rc ds) =
      ([SENTINEL, fmtPct ((pv : ℚ) / (pv : ℚ)), fmtPct ((rc : ℚ) / (pv : ℚ)),
        fmtPct ((ds : ℚ) / (pv : ℚ))],
       [SENTINEL, fmtPct (1 - (rc : ℚ) / (pv : ℚ)), fmtPct (1 - (ds : ℚ) / (rc : ℚ)),
        SENTINEL]) := by
  have hpvq : (0 : ℚ) < (pv : ℚ) := by exact_mod_cast hpv
  have hrcq : (0 : ℚ) < (rc : ℚ) := by exact_mod_cast hrc
  have hr : List.range 2 = [0, 1] := rfl
  simp [funnelColumns, funnelTotals, funnel_steps, baselineTotal, pctCol, dropOffs,
        dropOffEntry, pctEntry, hr, hpvq, hrcq]

/-- A `some` baseline cell forces the totals list to have at least 2 entries. -/
theorem length_ge_two_of_baseline (totals : List (Option ℚ)) (b : ℚ)
    (hb : baselineTotal totals = some b) : 2 ≤ totals.length := by
  rcases h1 : totals[1]? with _ | ob
  · rw [baselineTotal, h1] at hb
    cases hb
  · have := (List.getElem?_eq_some.mp h1).1
    omega

/-- The drop-off column has one cell per funnel row. -/
theorem dropOffs_length (totals : List (Option ℚ)) (h : 2 ≤ totals.length) :
    (dropOffs totals).length = totals.length := by
  simp only [dropOffs, List.length_cons, List.length_append, List.length_map,
             List.length_range, List.length_nil]
  omega

/-- The first drop-off cell is the sentinel. -/
theorem dropOffs_first (totals : List (Option ℚ)) :
    (dropOffs totals)[0]? = some SENTINEL := by
  rw [dropOffs]
  exact List.getElem?_cons_zero

/-- The last drop-off cell is the sentinel. -/
theorem dropOffs_last (totals : List (Option ℚ)) (h : 2 ≤ totals.length) :
    (dropOffs totals)[totals.length - 1]? = some SENTINEL := by
  obtain ⟨k, hk⟩ : ∃ k, totals.length = k + 2 := ⟨totals.length - 2, by omega⟩
  rw [dropOffs, hk]
  have h1 : k + 2 - 1 - 1 = k := by omega
  have h2 : k + 2 - 1 = k + 1 := by omega
  rw [h1, h2]
  simp only [List.getElem?_cons_succ]
  rw [List.getElem?_append_right (by simp)]
  simp

/-- Interior drop-off cells follow `dropOffEntry`. -/
theorem dropOffs_interior (totals : List (Option ℚ)) (i : ℕ)
    (h1 : 1 ≤ i) (h2 : i ≤ totals.length - 2) :
    (dropOffs totals)[i]? = some (dropOffEntry totals i) := by
  obtain ⟨j, rfl⟩ : ∃ j, i = j + 1 := ⟨i - 1, by omega⟩
  have hj : j < totals.length - 1 - 1 := by omega
  rw [dropOffs]
  simp only [List.getElem?_cons_succ]
  rw [List.getElem?_append_left (by simpa using hj), List.getElem?_map,
      List.getElem?_range hj]
  rfl

/-! ### General lemmas about run_ga4_report -/

/-- Bind on a successful `Except` computation. -/
theorem exceptBind_ok {ee α β : Type} (a : α) (f : α → Except ee β) :
    (Except.ok a >>= f) = f a := rfl

/-- Bind on a failed `Except` computation. -/
theorem exceptBind_error {ee α β : Type} (e : ee) (f : α → Except ee β) :
    ((Except.error e : Except ee α) >>= f) = Except.error e := rfl

/-- A successful `buildFilters` yields one filter per spec. -/
theorem buildFilters_length (specs : List FilterSpec) (fs : List Filter)
    (h : buildFilters specs = Except.ok fs) : fs.length = specs.length := by
  induction specs generalizing fs with
  | nil =>
    simp only [buildFilters] at h
    cases h
    rfl
  | cons a t ih =>
    rw [buildFilters] at h
    rcases hmt : matchTypeOfName (upper a.2.2) with _ | mt
    · rw [hmt] at h
      cases h
    · rw [hmt] at h
      rcases hrest : buildFilters t with e | fs'
      · rw [hrest] at h
        cases h
      · rw [hrest] at h
        simp only [Except.bind] at h
        cases h
        simp [ih fs' hrest]

/-- A single valid filter spec is passed through unwrapped. -/
theorem buildFilterExpression_single (s : FilterSpec) (f : Filter)
    (h : buildFilters [s] = Except.ok [f]) :
    buildFilterExpression (some [s]) = Except.ok (some (FilterExpression.filter f)) := by
  rw [buildFilterExpression, if_pos (show truthy (some [s]) = true from rfl),
      show (some [s]).getD [] = [s] from rfl, h]
  rfl

/-- Two or more valid filter specs are combined in an AND-group. -/
theorem buildFilterExpression_many (specs : List FilterSpec) (fs : List Filter)
    (h2 : 2 ≤ specs.length) (h : buildFilters specs = Except.ok fs) :
    buildFilterExpression (some specs) =
      Except.ok (some (FilterExpression.and_group (fs.map FilterExpression.filter))) := by
  have hl := buildFilters_length specs fs h
  have htr : truthy (some specs) = true := by
    rcases specs with _ | ⟨s, t⟩
    · simp at h2
    · rfl
  rw [buildFilterExpression, if_pos htr, show (some specs).getD [] = specs from rfl, h]
  rcases fs with _ | ⟨f1, _ | ⟨f2, ft⟩⟩
  · simp at hl; omega
  · simp at hl; omega
  · rfl

/-- Whatever the other arguments are, a failing backend makes `run_ga4_report`
return the type-appropriate safe default without raising. -/
theorem run_ga4_report_of_backend_error (err : String) (property_id : String)
    (metric_names : List String) (sd ed : ℤ) (dims : Option (List String))
    (specs : Option (List FilterSpec)) :
    run_ga4_report (fun _ => Except.error err) property_id metric_names sd ed dims specs
      = (if truthy dims then ReportResult.mapping [] else ReportResult.scalar 0) := by
  rcases hfe : buildFilterExpression specs with e | fe
  · simp [run_ga4_report, buildRequest, hfe, exceptBind_ok, exceptBind_error]
  · simp [run_ga4_report, buildRequest, hfe, exceptBind_ok, exceptBind_error]

/-- `buildFilters` depends on each spec only through the field name, the value
and the uppercased match-mode string. -/
theorem buildFilters_congr (s1 s2 : List FilterSpec)
    (h : s1.map (fun t => (t.1, t.2.1, upper t.2.2))
       = s2.map (fun t => (t.1, t.2.1, upper t.2.2))) :
    buildFilters s1 = buildFilters s2 := by
  induction s1 generalizing s2 with
  | nil =>
    cases s2 with
    | nil => rfl
    | cons b u => simp at h
  | cons a t ih =>
    cases s2 with
    | nil => simp at h
    | cons b u =>
      simp only [List.map_cons, List.cons.injEq, Prod.mk.injEq] at h
      obtain ⟨⟨h1, h2, h3⟩, htu⟩ := h
      rw [buildFilters, buildFilters, h1, h2, h3, ih u htu]

/-- Truthiness of an optional list only depends on its length. -/
theorem truthy_congr_of_length {α : Type} (s1 s2 : List α) (h : s1.length = s2.length) :
    truthy (some s1) = truthy (some s2) := by
  cases s1 <;> cases s2 <;> simp_all [truthy]

/-- `buildFilterExpression` congruence under uppercased-spec equality. -/
theorem buildFilterExpression_congr (s1 s2 : List FilterSpec)
    (h : s1.map (fun t => (t.1, t.2.1, upper t.2.2))
       = s2.map (fun t => (t.1, t.2.1, upper t.2.2))) :
    buildFilterExpression (some s1) = buildFilterExpression (some s2) := by
  have hlen : s1.length = s2.length := by
    have := congrArg List.length h
    simpa using this
  rw [buildFilterExpression, buildFilterExpression,
      truthy_congr_of_length s1 s2 hlen,
      show (some s1).getD [] = s1 from rfl, show (some s2).getD [] = s2 from rfl,
      buildFilters_congr s1 s2 h]

/-- `buildRequest` congruence under uppercased-spec equality. -/
theorem buildRequest_congr_specs (property_id : String) (metric_names : List String)
    (sd ed : ℤ) (dims : Option (List String)) (s1 s2 : List FilterSpec)
    (h : s1.map (fun t => (t.1, t.2.1, upper t.2.2))
       = s2.map (fun t => (t.1, t.2.1, upper t.2.2))) :
    buildRequest property_id metric_names sd ed dims (some s1)
      = buildRequest property_id metric_names sd ed dims (some s2) := by
  rw [buildRequest, buildRequest, buildFilterExpression_congr s1 s2 h]

/-- `run_ga4_report` congruence under uppercased-spec equality. -/
theorem run_congr_specs (backend : RunReportRequest → Except String (List Row))
    (property_id : String) (metric_names : List String)
    (sd ed : ℤ) (dims : Option (List String)) (s1 s2 : List FilterSpec)
    (h : s1.map (fun t => (t.1, t.2.1, upper t.2.2))
       = s2.map (fun t => (t.1, t.2.1, upper t.2.2))) :
    run_ga4_report backend property_id metric_names sd ed dims (some s1)
      = run_ga4_report backend property_id metric_names sd ed dims (some s2) := by
  rw [run_ga4_report, run_ga4_report,
      buildRequest_congr_specs property_id metric_names sd ed dims s1 s2 h]

/-! ### Claims -/

/-- C1: with backend event counts page_view = 1000, click_register = 250,
discord_signin = 40, the funnel computation produces percentage-of-baseline
25.00% for Clicked Register and 4.00% for Signed in with Discord, drop-off
75.00% from Landing Page Visits to Clicked Register and 84.00% from Clicked
Register to Signed in with Discord, sentinel drop-off for the final stage, and
sentinel percentage and drop-off for the placeholder stage. -/
theorem funnel_concrete_counts :
    funnelColumns (funnelTotals
        (page_views [("page_view", 1000), ("click_register", 250), ("discord_signin", 40)])
        (register_clicks [("page_view", 1000), ("click_register", 250), ("discord_signin", 40)])
        (discord_signins [("page_view", 1000), ("click_register", 250), ("discord_signin", 40)]))
      = (["—", "100.00%", "25.00%", "4.00%"], ["—", "75.00%", "84.00%", "—"]) := by
  show funnelColumns (funnelTotals 1000 250 40)
      = (["—", "100.00%", "25.00%", "4.00%"], ["—", "75.00%", "84.00%", "—"])
  rw [funnelColumns_pos_eval 1000 250 40 (by norm_num) (by norm_num),
      fmtPct_div 1000 1000 (by norm_num), fmtPct_div 250 1000 (by norm_num),
      fmtPct_div 40 1000 (by norm_num), fmtPct_one_sub_div 250 1000 (by norm_num),
      fmtPct_one_sub_div 40 250 (by norm_num)]
  decide

/-- C2: whenever the baseline stage's total (index 1) is 0, absent or
undefined, every stage's percentage and drop-off cell is the sentinel,
whatever the other stages hold; no division is ever reached. -/
theorem funnel_bad_baseline_sentinel (totals : List (Option ℚ))
    (h : ∀ b, baselineTotal totals = some b → b ≤ 0) :
    funnelColumns totals =
      (List.replicate totals.length SENTINEL, List.replicate totals.length SENTINEL) := by
  rcases hbt : baselineTotal totals with _ | b
  · simp only [funnelColumns, hbt]
  · simp only [funnelColumns, hbt, if_neg (not_lt.mpr (h b hbt))]

/-- Witness for C2 at page_view = 0, click_register = 5, discord_signin = 3. -/
theorem funnel_bad_baseline_sentinel_witness :
    funnelColumns (funnelTotals 0 5 3) =
      (List.replicate (funnelTotals 0 5 3).length SENTINEL,
       List.replicate (funnelTotals 0 5 3).length SENTINEL) :=
  funnel_bad_baseline_sentinel (funnelTotals 0 5 3)
    (by intro b hb; injection hb with h; rw [← h]; norm_num)

/-- C3: on any backend failure, `run_ga4_report` returns the safe default (0
undimensioned, empty mapping dimensioned) instead of raising, and the funnel
built from the failed call is still the well-formed 4-stage report with every
GA4-derived stage total equal to 0. -/
theorem run_ga4_report_failure_safe_default (err : String) (property_id : String)
    (metric_names : List String) (sd ed : ℤ) (dims : Option (List String))
    (specs : Option (List FilterSpec)) :
    run_ga4_report (fun _ => Except.error err) property_id metric_names sd ed dims specs
      = (if truthy dims then ReportResult.mapping [] else ReportResult.scalar 0) ∧
    reportMapping (funnel_event_counts (fun _ => Except.error err) property_id sd ed) = [] ∧
    funnelTotals
        (page_views (reportMapping
          (funnel_event_counts (fun _ => Except.error err) property_id sd ed)))
        (register_clicks (reportMapping
          (funnel_event_counts (fun _ => Except.error err) property_id sd ed)))
        (discord_signins (reportMapping
          (funnel_event_counts (fun _ => Except.error err) property_id sd ed)))
      = [none, some 0, some 0, some 0] ∧
    (funnelTotals
        (page_views (reportMapping
          (funnel_event_counts (fun _ => Except.error err) property_id sd ed)))
        (register_clicks (reportMapping
          (funnel_event_counts (fun _ => Except.error err) property_id sd ed)))
        (discord_signins (reportMapping
          (funnel_event_counts (fun _ => Except.error err) property_id sd ed)))).length
      = 4 := by
  have hm : reportMapping
      (funnel_event_counts (fun _ => Except.error err) property_id sd ed) = [] := by
    rw [funnel_event_counts, run_ga4_report_of_backend_error]
    rfl
  refine ⟨run_ga4_report_of_backend_error err property_id metric_names sd ed dims specs,
          hm, ?_, ?_⟩
  · rw [hm]
    simp [funnelTotals, funnel_steps, page_views, register_clicks, discord_signins, dictGet]
  · rfl

/-- C4: an undimensioned call whose backend call succeeds returns the integer
value of the first row's first metric, and 0 when the backend returned no
rows. -/
theorem run_ga4_report_undimensioned_success
    (backend : RunReportRequest → Except String (List Row))
    (property_id : String) (metric_names : List String) (sd ed : ℤ)
    (dims : Option (List String)) (specs : Option (List FilterSpec))
    (fe : Option FilterExpression) (rows : List Row)
    (hdim : truthy dims = false)
    (hfe : buildFilterExpression specs = Except.ok fe)
    (hbackend : ∀ req, backend req = Except.ok rows) :
    (rows = [] →
      run_ga4_report backend property_id metric_names sd ed dims specs
        = ReportResult.scalar 0) ∧
    (∀ r rest v vs, rows = r :: rest → r.metric_values = v :: vs →
      run_ga4_report backend property_id metric_names sd ed dims specs
        = ReportResult.scalar v) := by
  constructor
  · intro hrows
    subst hrows
    simp [run_ga4_report, buildRequest, hfe, exceptBind_ok, exceptBind_error, hbackend, hdim]
  · intro r rest v vs hrows hmv
    subst hrows
    simp [run_ga4_report, buildRequest, hfe, exceptBind_ok, exceptBind_error, hbackend,
          hdim, hmv]

/-- Witness for C4 at a backend returning no rows enforcing the 0 default. -/
theorem run_ga4_report_undimensioned_success_witness :
    ((([] : List Row) = []) →
      run_ga4_report (fun _ => Except.ok []) "p" ["totalUsers"] 0 0 none none
        = ReportResult.scalar 0) ∧
    (∀ r rest v vs, ([] : List Row) = r :: rest → r.metric_values = v :: vs →
      run_ga4_report (fun _ => Except.ok []) "p" ["totalUsers"] 0 0 none none
        = ReportResult.scalar v) :=
  run_ga4_report_undimensioned_success (fun _ => Except.ok []) "p" ["totalUsers"] 0 0
    none none none [] rfl rfl (fun _ => rfl)

/-- C5: two or more filter triples are combined into a logical AND-group in
the request's dimension filter; exactly one filter triple is passed through
unwrapped. -/
theorem run_ga4_report_filter_composition
    (property_id : String) (metric_names : List String) (sd ed : ℤ)
    (dims : Option (List String)) (specs : List FilterSpec) (fs : List Filter)
    (h : buildFilters specs = Except.ok fs) :
    (2 ≤ specs.length →
      (buildRequest property_id metric_names sd ed dims (some specs)).map
          RunReportRequest.dimension_filter
        = Except.ok (some (FilterExpression.and_group
            (fs.map FilterExpression.filter)))) ∧
    (specs.length = 1 → ∃ f, fs = [f] ∧
      (buildRequest property_id metric_names sd ed dims (some specs)).map
          RunReportRequest.dimension_filter
        = Except.ok (some (FilterExpression.filter f))) := by
  constructor
  · intro hge
    rw [buildRequest, buildFilterExpression_many specs fs hge h]
    rfl
  · intro h1
    have hl := buildFilters_length specs fs h
    rcases specs with _ | ⟨s, _ | ⟨s2, st⟩⟩
    · simp at h1
    · rcases fs with _ | ⟨f, _ | ⟨g, gt⟩⟩
      · simp at hl
      · exact ⟨f, rfl, by rw [buildRequest, buildFilterExpression_single s f h]; rfl⟩
      · simp at hl
    · simp at h1

/-- Witness for C5 at two concrete filter triples. -/
theorem run_ga4_report_filter_composition_witness :
    (2 ≤ ([(("a", "b", "EXACT") : FilterSpec), ("c", "d", "CONTAINS")]).length →
      (buildRequest "p" ["m"] 0 0 none
          (some [("a", "b", "EXACT"), ("c", "d", "CONTAINS")])).map
          RunReportRequest.dimension_filter
        = Except.ok (some (FilterExpression.and_group
            ([{ field_name := "a",
                string_filter := { value := "b", match_type := MatchType.EXACT } },
              { field_name := "c",
                string_filter := { value := "d", match_type := MatchType.CONTAINS } }].map
              FilterExpression.filter)))) ∧
    (([(("a", "b", "EXACT") : FilterSpec), ("c", "d", "CONTAINS")]).length = 1 →
      ∃ f, [{ field_name := "a",
              string_filter := { value := "b", match_type := MatchType.EXACT } },
            { field_name := "c",
              string_filter := { value := "d", match_type := MatchType.CONTAINS } }] = [f] ∧
      (buildRequest "p" ["m"] 0 0 none
          (some [("a", "b", "EXACT"), ("c", "d", "CONTAINS")])).map
          RunReportRequest.dimension_filter
        = Except.ok (some (FilterExpression.filter f))) :=
  run_ga4_report_filter_composition "p" ["m"] 0 0 none
    [("a", "b", "EXACT"), ("c", "d", "CONTAINS")]
    [{ field_name := "a", string_filter := { value := "b", match_type := MatchType.EXACT } },
     { field_name := "c", string_filter := { value := "d", match_type := MatchType.CONTAINS } }]
    rfl

/-- C6: for every lookback in `LOOKBACK_OPTIONS = [7, 14, 30]`, the range ends
today in the fixed reference timezone and spans exactly lookback calendar days
inclusive: its start is today minus (lookback - 1) days. -/
theorem funnel_lookback_range (today lb : ℤ) (hlb : lb ∈ LOOKBACK_OPTIONS) :
    TIMEZONE = "America/Los_Angeles" ∧
    range_end today = today ∧
    range_start today lb = today - (lb - 1) ∧
    range_end today - range_start today lb + 1 = lb := by
  refine ⟨rfl, rfl, rfl, ?_⟩
  simp only [range_start, range_end]
  ring

/-- Witness for C6 at lookback 7. -/
theorem funnel_lookback_range_witness :
    TIMEZONE = "America/Los_Angeles" ∧
    range_end 0 = 0 ∧
    range_start 0 7 = 0 - (7 - 1) ∧
    range_end 0 - range_start 0 7 + 1 = 7 :=
  funnel_lookback_range 0 7 (by decide)

/-- C7: the funnel query carries exactly one filter triple, whose value is the
single regex alternation of the three event names with FULL_REGEXP matching,
and the request built from it takes the unwrapped single-filter path (a bare
`filter`, not an `and_group`). -/
theorem funnel_query_single_regex_filter (property_id : String) (sd ed : ℤ) :
    funnel_filter_specs.length = 1 ∧
    funnel_event_names_regex = "page_view|click_register|discord_signin" ∧
    (buildRequest property_id ["totalUsers"] sd ed (some ["eventName"])
        (some funnel_filter_specs)).map RunReportRequest.dimension_filter
      = Except.ok (some (FilterExpression.filter
          { field_name := "eventName",
            string_filter := { value := funnel_event_names_regex,
                               match_type := MatchType.FULL_REGEXP } })) := by
  refine ⟨rfl, rfl, ?_⟩
  have h : buildFilters funnel_filter_specs
      = Except.ok [{ field_name := "eventName",
                     string_filter := { value := funnel_event_names_regex,
                                        match_type := MatchType.FULL_REGEXP } }] := rfl
  rw [show funnel_filter_specs
        = [(("eventName", funnel_event_names_regex, "FULL_REGEXP") : FilterSpec)] from rfl,
      buildRequest, buildFilterExpression_single _ _ h]
  rfl

/-- C8 counterexample: with counts page_view = 0, click_register = 10,
discord_signin = 5, stage 2's total is present and positive and stage 3's is
present, yet the constructed report's drop-off cell at stage 2 is the
sentinel, not the formatted 50.00% the claim demands. -/
theorem funnel_dropoff_claim_counterexample :
    (funnelTotals 0 10 5)[2]? = some (some ((10 : ℤ) : ℚ)) ∧
    (0 : ℚ) < ((10 : ℤ) : ℚ) ∧
    (funnelTotals 0 10 5)[3]? = some (some ((5 : ℤ) : ℚ)) ∧
    (funnelColumns (funnelTotals 0 10 5)).2 = [SENTINEL, SENTINEL, SENTINEL, SENTINEL] ∧
    fmtPct (1 - ((5 : ℤ) : ℚ) / ((10 : ℤ) : ℚ)) = "50.00%" ∧
    SENTINEL ≠ "50.00%" := by
  refine ⟨rfl, by decide, rfl, by decide, ?_, by decide⟩
  rw [fmtPct_one_sub_div 5 10 (by norm_num)]
  decide

/-- C8 (amended): in every constructed FunnelReport whose baseline (stage 1)
total is present and positive, the drop-off column has one cell per stage,
stage 0 and the final stage carry the sentinel, interior cells (1 ≤ i ≤ n-2)
carry `dropOffEntry`, and `dropOffEntry` equals the formatted
1 - stage[i+1]/stage[i] exactly when stage[i] is present and positive and
stage[i+1] is present, else the sentinel. -/
theorem funnel_dropoff_structure_amended (totals : List (Option ℚ)) (b : ℚ)
    (hb : baselineTotal totals = some b) (hpos : 0 < b) :
    (funnelColumns totals).2.length = totals.length ∧
    (funnelColumns totals).2[0]? = some SENTINEL ∧
    (funnelColumns totals).2[totals.length - 1]? = some SENTINEL ∧
    (∀ i, 1 ≤ i → i ≤ totals.length - 2 →
      (funnelColumns totals).2[i]? = some (dropOffEntry totals i)) ∧
    (∀ i c nx, totals[i]? = some (some c) → totals[i + 1]? = some (some nx) →
      dropOffEntry totals i = if 0 < c then fmtPct (1 - nx / c) else SENTINEL) := by
  have hlen := length_ge_two_of_baseline totals b hb
  have hcol : (funnelColumns totals).2 = dropOffs totals := by
    rw [funnelColumns_of_pos_baseline totals b hb hpos]
  refine ⟨?_, ?_, ?_, ?_, ?_⟩
  · rw [hcol]; exact dropOffs_length totals hlen
  · rw [hcol]; exact dropOffs_first totals
  · rw [hcol]; exact dropOffs_last totals hlen
  · intro i h1 h2
    rw [hcol]
    exact dropOffs_interior totals i h1 h2
  · intro i c nx hc hnx
    rw [dropOffEntry, hc, hnx]

/-- Witness for the amended C8 at counts 1000, 250, 40. -/
theorem funnel_dropoff_structure_amended_witness :
    (funnelColumns (funnelTotals 1000 250 40)).2.length
      = (funnelTotals 1000 250 40).length ∧
    (funnelColumns (funnelTotals 1000 250 40)).2[0]? = some SENTINEL ∧
    (funnelColumns (funnelTotals 1000 250 40)).2[(funnelTotals 1000 250 40).length - 1]?
      = some SENTINEL ∧
    (∀ i, 1 ≤ i → i ≤ (funnelTotals 1000 250 40).length - 2 →
      (funnelColumns (funnelTotals 1000 250 40)).2[i]?
        = some (dropOffEntry (funnelTotals 1000 250 40) i)) ∧
    (∀ i c nx, (funnelTotals 1000 250 40)[i]? = some (some c) →
      (funnelTotals 1000 250 40)[i + 1]? = some (some nx) →
      dropOffEntry (funnelTotals 1000 250 40) i
        = if 0 < c then fmtPct (1 - nx / c) else SENTINEL) :=
  funnel_dropoff_structure_amended (funnelTotals 1000 250 40) ((1000 : ℤ) : ℚ)
    rfl (by norm_num)

/-- C9: looking an absent event name up in a dimensioned mapping yields 0 and
never a missing-key failure; the funnel reads its three event counts with a
default of 0. -/
theorem dict_lookup_absent_default (m : List (String × ℤ)) (k : String)
    (h : ∀ p ∈ m, p.1 ≠ k) :
    dictGet m k 0 = 0 ∧
    (∀ counts : List (String × ℤ),
      page_views counts = dictGet counts "page_view" 0 ∧
      register_clicks counts = dictGet counts "click_register" 0 ∧
      discord_signins counts = dictGet counts "discord_signin" 0) := by
  constructor
  · have hf : m.find? (fun p => p.1 == k) = none := by
      rw [List.find?_eq_none]
      intro x hx
      simpa using h x hx
    rw [dictGet, hf]
  · intro counts
    exact ⟨rfl, rfl, rfl⟩

/-- Witness for C9 at a mapping without the "page_view" key. -/
theorem dict_lookup_absent_default_witness :
    dictGet [("a", (3 : ℤ))] "page_view" 0 = 0 ∧
    (∀ counts : List (String × ℤ),
      page_views counts = dictGet counts "page_view" 0 ∧
      register_clicks counts = dictGet counts "click_register" 0 ∧
      discord_signins counts = dictGet counts "discord_signin" 0) :=
  dict_lookup_absent_default [("a", 3)] "page_view" (by decide)

/-- C10: the match-mode string is resolved case-insensitively (uppercased
before the enumeration lookup), so two calls whose filter specs agree after
uppercasing the match-mode strings build the same request and return the same
result. -/
theorem match_mode_case_insensitive
    (backend : RunReportRequest → Except String (List Row))
    (property_id : String) (metric_names : List String) (sd ed : ℤ)
    (dims : Option (List String)) (s1 s2 : List FilterSpec)
    (h : s1.map (fun t => (t.1, t.2.1, upper t.2.2))
       = s2.map (fun t => (t.1, t.2.1, upper t.2.2))) :
    buildRequest property_id metric_names sd ed dims (some s1)
      = buildRequest property_id metric_names sd ed dims (some s2) ∧
    run_ga4_report backend property_id metric_names sd ed dims (some s1)
      = run_ga4_report backend property_id metric_names sd ed dims (some s2) :=
  ⟨buildRequest_congr_specs property_id metric_names sd ed dims s1 s2 h,
   run_congr_specs backend property_id metric_names sd ed dims s1 s2 h⟩

/-- Witness for C10 at the spec strings full_regexp and FULL_REGEXP. -/
theorem match_mode_case_insensitive_witness :
    buildRequest "p" ["totalUsers"] 0 0 none
        (some [("eventName", "x", "full_regexp")])
      = buildRequest "p" ["totalUsers"] 0 0 none
        (some [("eventName", "x", "FULL_REGEXP")]) ∧
    run_ga4_report (fun _ => Except.ok []) "p" ["totalUsers"] 0 0 none
        (some [("eventName", "x", "full_regexp")])
      = run_ga4_report (fun _ => Except.ok []) "p" ["totalUsers"] 0 0 none
        (some [("eventName", "x", "FULL_REGEXP")]) :=
  match_mode_case_insensitive (fun _ => Except.ok []) "p" ["totalUsers"] 0 0 none
    [("eventName", "x", "full_regexp")] [("eventName", "x", "FULL_REGEXP")] (by decide)

end ChessArena
